import Mathlib

/-!
Shallow embedding of `src/c_test/nob.py`: a leveled colored logger (`Log`)
and a shell-command builder/runner (`Cmd`).  Nondeterministic or external
effects are made explicit parameters: the wall-clock timestamp is a string
argument `ts`, the outcome of the file write is an `Option String`
(`none` = success, `some e` = an `IOError` with message `e`), and the
outcome of the subprocess call is a `SubprocessOutcome` argument.
Console printing and file appends are collected in output lists.
-/

namespace Nob

/-- ANSI escape codes for colors (module-level constants in the source). -/
def ANSI_RESET : String := "\x1b[0m"

def ANSI_GREEN : String := "\x1b[32m"

def ANSI_YELLOW : String := "\x1b[33m"

def ANSI_RED : String := "\x1b[31m"

def ANSI_CYAN : String := "\x1b[36m"

def ANSI_BRIGHT_GREEN : String := "\x1b[92m"

/-- The `LogType` severity enum, with the integer values of the source. -/
inductive LogType
  | DEBUG
  | INFO
  | WARNING
  | ERROR
  | SUCCESS
deriving DecidableEq, Repr

/-- The `.value` of each `LogType` member (`DEBUG = 0` … `SUCCESS = 4`). -/
def LogType.value : LogType → Nat
  | .DEBUG => 0
  | .INFO => 1
  | .WARNING => 2
  | .ERROR => 3
  | .SUCCESS => 4

/-- The `._name_` of each `LogType` member. -/
def LogType.name : LogType → String
  | .DEBUG => "DEBUG"
  | .INFO => "INFO"
  | .WARNING => "WARNING"
  | .ERROR => "ERROR"
  | .SUCCESS => "SUCCESS"

/-- The state of a `Log` instance: `type`, `log_level`, `log_file_path`
(`None` in Python is `none`; note Python treats the empty string path as
falsy, which the embedding reproduces). -/
structure Log where
  type : LogType
  log_level : LogType
  log_file_path : Option String
deriving DecidableEq, Repr

/-- Embeds `Log._get_color`: the ANSI color for the current log type. -/
def Log.getColor (l : Log) : String :=
  match l.type with
  | .DEBUG => ANSI_CYAN
  | .INFO => ANSI_GREEN
  | .WARNING => ANSI_YELLOW
  | .ERROR => ANSI_RED
  | .SUCCESS => ANSI_BRIGHT_GREEN

/-- Embeds `Log._format_content`: the colored console rendering of a message. -/
def Log.formatContent (l : Log) (ts content : String) : String :=
  l.getColor ++ "[" ++ ts ++ " " ++ l.type.name ++ "]: " ++ content ++ ANSI_RESET

/-- The plain (uncolored) line written to the log file
(`plain_content_for_file` in `Log.log`), newline included. -/
def plainLine (ts : String) (t : LogType) (content : String) : String :=
  "[" ++ ts ++ " " ++ t.name ++ "]: " ++ content ++ "\n"

/-- One message printed to the console: its severity (the logger's `type`
at the time of the call) and its raw content. -/
structure ConsoleEntry where
  severity : LogType
  content : String
deriving DecidableEq, Repr

/-- The observable effects of one `Log.log` call: console prints in order,
and file appends as (path, line) pairs in order. -/
structure LogOutput where
  console : List ConsoleEntry
  fileWrites : List (String × String)
deriving DecidableEq, Repr

/-- The message of the secondary error report when the file write fails
(`f"Failed to write to log file '{path}': {e}"`). -/
def failWriteMsg (p emsg : String) : String :=
  "Failed to write to log file '" ++ p ++ "': " ++ emsg

/-- The secondary logger built in `Log.log`'s `except IOError` handler:
`Log(LogType.ERROR, log_level=self.log_level)` — the file path defaults
to `None`. -/
def errorLogger (l : Log) : Log :=
  ⟨LogType.ERROR, l.log_level, none⟩

/-- The body of `Log.log`, fueled.  The recursion (the handler calls `error_logger.log`)
has depth at most 2 because `errorLogger` has no file path, so the fuel-0
base case is unreachable from `Log.log` below. -/
def Log.logFuel : Nat → Log → String → String → Option String → LogOutput
  | 0, _, _, _, _ => ⟨[], []⟩
  | n + 1, l, ts, content, writeErr =>
    if l.type.value < l.log_level.value then ⟨[], []⟩
    else
      let entry : ConsoleEntry := ⟨l.type, content⟩
      match l.log_file_path with
      | some p =>
        if p = "" then ⟨[entry], []⟩
        else
          match writeErr with
          | none => ⟨[entry], [(p, plainLine ts l.type content)]⟩
          | some emsg =>
            let errOut := Log.logFuel n (errorLogger l) ts (failWriteMsg p emsg) writeErr
            ⟨entry :: errOut.console, errOut.fileWrites⟩
      | none => ⟨[entry], []⟩

/-- Embeds `Log.log(content)`: filter by level, print to console, optionally
append to the file; on a write failure report through `errorLogger`. -/
def Log.log (l : Log) (ts content : String) (writeErr : Option String) : LogOutput :=
  Log.logFuel 2 l ts content writeErr

/-- The `subprocess.CompletedProcess` result, restricted to the fields the script uses. -/
structure CompletedProcess where
  returncode : Int
  stdout : String
  stderr : String
deriving DecidableEq, Repr

/-- The exceptions `Cmd.run` can see from `subprocess.run`:
`CalledProcessError` (with the captured output), `FileNotFoundError`,
and any other `Exception` (carried as its message). -/
inductive RunExc
  | calledProcessError (returncode : Int) (stdout stderr : String)
  | fileNotFound
  | unexpected (msg : String)
deriving DecidableEq, Repr

/-- The outcome of the underlying process spawn, an oracle parameter:
either the child ran to completion with the given code and captured
output, or the spawn itself raised `FileNotFoundError`, or some other
fault occurred.  With `shell=True` the spawned child is the shell, so
`notFound` arises only when the shell binary itself cannot be run; a
missing base executable instead completes with shell exit status 127
(see `missingExecOutcome`). -/
inductive SubprocessOutcome
  | completed (returncode : Int) (stdout stderr : String)
  | notFound
  | fault (msg : String)
deriving DecidableEq, Repr

/-- The outcome `subprocess.run(..., shell=True)` produces when the base
executable of the command line does not exist: the shell is found and
spawned, writes a not-found diagnostic to stderr, and exits with status
127 (POSIX).  No `FileNotFoundError` is raised in this scenario. -/
def missingExecOutcome (stderrMsg : String) : SubprocessOutcome :=
  .completed 127 "" stderrMsg

/-- Embeds `subprocess.run(full_command, capture_output=True, text=True,
shell=True, check=check)`: with `check` set it raises
`CalledProcessError` on any non-zero exit code, before control returns
to `Cmd.run`'s normal path. -/
def subprocessRun (check : Bool) (o : SubprocessOutcome) : Except RunExc CompletedProcess :=
  match o with
  | .completed rc out err =>
    if check ∧ rc ≠ 0 then .error (.calledProcessError rc out err)
    else .ok ⟨rc, out, err⟩
  | .notFound => .error .fileNotFound
  | .fault m => .error (.unexpected m)

/-- The `str(e)` rendering for a `subprocess.CalledProcessError`. -/
def calledProcessErrorStr (full : String) (rc : Int) : String :=
  "Command '" ++ full ++ "' returned non-zero exit status " ++ toString rc ++ "."

/-- A `Cmd` instance: base command, flag list, and its internal logger. -/
structure Cmd where
  command : String
  flags : List String
  logger : Log
deriving DecidableEq, Repr

/-- Embeds `Cmd.__init__`: empty flags, default logger
`Log(log_level=LogType.DEBUG)` (so `type=INFO`, no file path). -/
def Cmd.new (command : String) : Cmd :=
  ⟨command, [], ⟨LogType.INFO, LogType.DEBUG, none⟩⟩

/-- Embeds `Cmd.add_flags`: `self.flags.extend(flags); return self`. -/
def Cmd.add_flags (c : Cmd) (flags : List String) : Cmd :=
  { c with flags := c.flags ++ flags }

/-- The `full_command` string built by `run` from the base command and flags. -/
def fullCommand (c : Cmd) : String :=
  c.command ++ " " ++ String.intercalate " " c.flags

/-- The running state of one `Cmd.run` call: the (mutated) logger and the
console/file output accumulated so far. -/
structure RunState where
  logger : Log
  console : List ConsoleEntry
  fileWrites : List (String × String)
deriving DecidableEq, Repr

/-- Embeds the statement pair `self.logger.type = t; self.logger.log(content)`. -/
def RunState.emit (s : RunState) (t : LogType) (ts content : String) : RunState :=
  let logger := { s.logger with type := t }
  let out := logger.log ts content none
  ⟨logger, s.console ++ out.console, s.fileWrites ++ out.fileWrites⟩

/-- Embeds `self.logger.log(content)` with the type left as it is (the second and
third logs of the `CalledProcessError` handler). -/
def RunState.emitKeep (s : RunState) (ts content : String) : RunState :=
  let out := s.logger.log ts content none
  ⟨s.logger, s.console ++ out.console, s.fileWrites ++ out.fileWrites⟩

/-- Embeds `Cmd.run(check_returncode)`: builds the command line, logs it, runs the
subprocess, logs the outcome, and returns the `CompletedProcess` or
re-raises the caught exception (the `Except.error` side). -/
def Cmd.run (c : Cmd) (check : Bool) (ts : String) (o : SubprocessOutcome) :
    Except RunExc CompletedProcess × RunState :=
  let full := fullCommand c
  let s0 : RunState := ⟨c.logger, [], []⟩
  let s1 := s0.emit .INFO ts ("Running command: '" ++ full ++ "'...")
  match subprocessRun check o with
  | .ok result =>
    let s2 :=
      if result.returncode = 0 then
        s1.emit .SUCCESS ts ("Command '" ++ c.command ++ "' completed successfully.")
      else
        s1.emit .WARNING ts
          ("Command '" ++ c.command ++ "' exited with code " ++ toString result.returncode ++ ".")
    let s3 :=
      if result.stdout ≠ "" then s2.emit .INFO ts ("--- STDOUT ---\n" ++ result.stdout.trim)
      else s2
    let s4 :=
      if result.stderr ≠ "" then s3.emit .ERROR ts ("--- STDERR ---\n" ++ result.stderr.trim)
      else s3
    (.ok result, s4)
  | .error (.calledProcessError rc out err) =>
    let s2 := s1.emit .ERROR ts
      ("Command '" ++ c.command ++ "' failed with error: " ++ calledProcessErrorStr full rc)
    let s3 := if out ≠ "" then s2.emitKeep ts ("--- STDOUT ---\n" ++ out.trim) else s2
    let s4 := if err ≠ "" then s3.emitKeep ts ("--- STDERR ---\n" ++ err.trim) else s3
    (.error (.calledProcessError rc out err), s4)
  | .error .fileNotFound =>
    let s2 := s1.emit .ERROR ts
      ("Command '" ++ c.command ++ "' not found. Please ensure it is in your PATH.")
    (.error .fileNotFound, s2)
  | .error (.unexpected m) =>
    let s2 := s1.emit .ERROR ts
      ("An unexpected error occurred while running command '" ++ c.command ++ "': " ++ m)
    (.error (.unexpected m), s2)

/-! ### Helper lemmas -/

/-- Spec-side description of joining with single spaces, for comparison
with the source's `' '.join(...)`. -/
def joinSpaces : List String → String
  | [] => ""
  | [f] => f
  | f :: fs => f ++ " " ++ joinSpaces fs

/-- Tail part of a space join starting after a first element. -/
def joinTail : List String → String
  | [] => ""
  | f :: fs => " " ++ f ++ joinTail fs

theorem intercalate_go_eq (as : List String) :
    ∀ acc : String, String.intercalate.go acc " " as = acc ++ joinTail as := by
  induction as with
  | nil => intro acc; simp [String.intercalate.go, joinTail]
  | cons a as ih =>
    intro acc
    simp only [String.intercalate.go, joinTail, ih, String.append_assoc]

theorem joinSpaces_eq_tail (a : String) (as : List String) :
    joinSpaces (a :: as) = a ++ joinTail as := by
  induction as generalizing a with
  | nil => simp [joinSpaces, joinTail]
  | cons b bs ih =>
    simp only [joinSpaces, joinTail, ih, String.append_assoc]

theorem intercalate_eq_joinSpaces (fs : List String) :
    String.intercalate " " fs = joinSpaces fs := by
  cases fs with
  | nil => rfl
  | cons a as =>
    simp only [String.intercalate, intercalate_go_eq, joinSpaces_eq_tail]

theorem log_filtered (l : Log) (ts content : String) (writeErr : Option String)
    (h : l.type.value < l.log_level.value) :
    Log.log l ts content writeErr = ⟨[], []⟩ := by
  simp [Log.log, Log.logFuel, h]

theorem log_console_cons (l : Log) (ts content : String) (writeErr : Option String)
    (h : l.log_level.value ≤ l.type.value) :
    ∃ rest, (Log.log l ts content writeErr).console = ⟨l.type, content⟩ :: rest := by
  simp only [Log.log, Log.logFuel, Nat.not_lt.mpr h, if_false]
  cases hp : l.log_file_path with
  | none => exact ⟨[], rfl⟩
  | some p =>
    by_cases hps : p = ""
    · simp [hps]
    · simp only [hps, if_false]
      cases writeErr with
      | none => exact ⟨[], rfl⟩
      | some emsg => exact ⟨_, rfl⟩

/-! ### Claim theorems -/

/-- C1: `log` emits the message iff its severity value is at least the
configured minimum level's value (under `DEBUG=0 < INFO=1 < WARNING=2 <
ERROR=3 < SUCCESS=4`); below the level it produces no console and no
file output at all. -/
theorem c1_log_emits_iff_level (l : Log) (ts content : String) (writeErr : Option String) :
    ((Log.log l ts content writeErr).console ≠ [] ↔ l.log_level.value ≤ l.type.value) ∧
    (l.type.value < l.log_level.value → Log.log l ts content writeErr = ⟨[], []⟩) := by
  by_cases h : l.type.value < l.log_level.value
  · refine ⟨?_, fun _ => log_filtered l ts content writeErr h⟩
    rw [log_filtered l ts content writeErr h]
    simpa using h
  · push_neg at h
    obtain ⟨rest, hrest⟩ := log_console_cons l ts content writeErr h
    refine ⟨?_, fun h2 => absurd h2 (Nat.not_lt.mpr h)⟩
    rw [hrest]
    simp [h]

/-- Witness for C1 at concrete inputs: an `INFO` message passes a `DEBUG`
minimum level, and a `DEBUG` message is dropped by an `INFO` minimum level. -/
theorem c1_witness :
    (Log.log ⟨LogType.INFO, LogType.DEBUG, none⟩ "T" "m" none).console ≠ [] ∧
    Log.log ⟨LogType.DEBUG, LogType.INFO, none⟩ "T" "m" none = ⟨[], []⟩ :=
  ⟨(c1_log_emits_iff_level ⟨LogType.INFO, LogType.DEBUG, none⟩ "T" "m" none).1.mpr (by decide),
   (c1_log_emits_iff_level ⟨LogType.DEBUG, LogType.INFO, none⟩ "T" "m" none).2 (by decide)⟩

/-- C5: the command line joins the base command and the flags with single
spaces in the order added, and two `add_flags` calls with lists `A` then
`B` equal one call with `A ++ B`. -/
theorem c5_add_flags_append (c : Cmd) (A B : List String) (cmd : String) (fs : List String) :
    (c.add_flags A).add_flags B = c.add_flags (A ++ B) ∧
    fullCommand ((Cmd.new cmd).add_flags fs) = cmd ++ " " ++ joinSpaces fs := by
  constructor
  · simp [Cmd.add_flags]
  · simp [fullCommand, Cmd.new, Cmd.add_flags, intercalate_eq_joinSpaces]

/-- Witness for C5 at concrete inputs. -/
theorem c5_witness :
    ((Cmd.new "cc").add_flags ["-Wall"]).add_flags ["-O3"] =
      (Cmd.new "cc").add_flags (["-Wall"] ++ ["-O3"]) ∧
    fullCommand ((Cmd.new "cc").add_flags ["-Wall", "-O3"]) =
      "cc" ++ " " ++ joinSpaces ["-Wall", "-O3"] :=
  c5_add_flags_append (Cmd.new "cc") ["-Wall"] ["-O3"] "cc" ["-Wall", "-O3"]

/-- C9: the secondary logger built in the file-write failure handler has no
log file path, so its own `log` never produces a file write (hence never a
further file-write failure) and prints at most one console line. -/
theorem c9_error_logger_no_file (l : Log) :
    (errorLogger l).log_file_path = none ∧
    ∀ (ts content : String) (writeErr : Option String),
      ((errorLogger l).log ts content writeErr).fileWrites = [] ∧
      ((errorLogger l).log ts content writeErr).console.length ≤ 1 := by
  refine ⟨rfl, fun ts content writeErr => ?_⟩
  simp only [Log.log, Log.logFuel, errorLogger]
  split <;> simp

theorem run_completed_ok_state (cmd : String) (flags : List String) (check : Bool)
    (ts out err : String) (rc : Int) (hok : check = true → rc = 0) :
    Cmd.run ((Cmd.new cmd).add_flags flags) check ts (.completed rc out err) =
      (.ok ⟨rc, out, err⟩,
       ⟨⟨if err ≠ "" then .ERROR else if out ≠ "" then .INFO
           else if rc = 0 then .SUCCESS else .WARNING, .DEBUG, none⟩,
        [⟨.INFO, "Running command: '" ++ fullCommand ((Cmd.new cmd).add_flags flags) ++ "'..."⟩] ++
        [if rc = 0 then ⟨.SUCCESS, "Command '" ++ cmd ++ "' completed successfully."⟩
         else ⟨.WARNING, "Command '" ++ cmd ++ "' exited with code " ++ toString rc ++ "."⟩] ++
        (if out ≠ "" then [⟨.INFO, "--- STDOUT ---\n" ++ out.trim⟩] else []) ++
        (if err ≠ "" then [⟨.ERROR, "--- STDERR ---\n" ++ err.trim⟩] else []),
        []⟩) := by
  have hsub : subprocessRun check (.completed rc out err) = .ok ⟨rc, out, err⟩ := by
    cases check with
    | false => simp [subprocessRun]
    | true => simp [subprocessRun, hok rfl]
  simp only [Cmd.run, hsub]
  by_cases hrc : rc = 0 <;> by_cases hout : out = "" <;> by_cases herr : err = "" <;>
    simp [Cmd.new, Cmd.add_flags, RunState.emit, Log.log, Log.logFuel,
      LogType.value, fullCommand, hrc, hout, herr]

theorem run_cpe_state (cmd : String) (flags : List String)
    (ts out err : String) (rc : Int) (hrc : rc ≠ 0) :
    Cmd.run ((Cmd.new cmd).add_flags flags) true ts (.completed rc out err) =
      (.error (.calledProcessError rc out err),
       ⟨⟨.ERROR, .DEBUG, none⟩,
        [⟨.INFO, "Running command: '" ++ fullCommand ((Cmd.new cmd).add_flags flags) ++ "'..."⟩,
         ⟨.ERROR, "Command '" ++ cmd ++ "' failed with error: " ++
            calledProcessErrorStr (fullCommand ((Cmd.new cmd).add_flags flags)) rc⟩] ++
        (if out ≠ "" then [⟨.ERROR, "--- STDOUT ---\n" ++ out.trim⟩] else []) ++
        (if err ≠ "" then [⟨.ERROR, "--- STDERR ---\n" ++ err.trim⟩] else []),
        []⟩) := by
  have hsub : subprocessRun true (.completed rc out err) =
      .error (.calledProcessError rc out err) := by
    simp [subprocessRun, hrc]
  simp only [Cmd.run, hsub]
  by_cases hout : out = "" <;> by_cases herr : err = "" <;>
    simp [Cmd.new, Cmd.add_flags, RunState.emit, RunState.emitKeep,
      Log.log, Log.logFuel, LogType.value, fullCommand, hout, herr]

theorem run_notfound_state (cmd : String) (flags : List String) (check : Bool) (ts : String) :
    Cmd.run ((Cmd.new cmd).add_flags flags) check ts .notFound =
      (.error .fileNotFound,
       ⟨⟨.ERROR, .DEBUG, none⟩,
        [⟨.INFO, "Running command: '" ++ fullCommand ((Cmd.new cmd).add_flags flags) ++ "'..."⟩,
         ⟨.ERROR, "Command '" ++ cmd ++ "' not found. Please ensure it is in your PATH."⟩],
        []⟩) := by
  simp [Cmd.run, subprocessRun, Cmd.new, Cmd.add_flags, RunState.emit,
    Log.log, Log.logFuel, LogType.value, fullCommand]

theorem run_fault_state (cmd : String) (flags : List String) (check : Bool) (ts m : String) :
    Cmd.run ((Cmd.new cmd).add_flags flags) check ts (.fault m) =
      (.error (.unexpected m),
       ⟨⟨.ERROR, .DEBUG, none⟩,
        [⟨.INFO, "Running command: '" ++ fullCommand ((Cmd.new cmd).add_flags flags) ++ "'..."⟩,
         ⟨.ERROR, "An unexpected error occurred while running command '" ++ cmd ++ "': " ++ m⟩],
        []⟩) := by
  simp [Cmd.run, subprocessRun, Cmd.new, Cmd.add_flags, RunState.emit,
    Log.log, Log.logFuel, LogType.value, fullCommand]

/-- C3 counterexample: for a nonexistent base executable under
`shell=True` the shell completes with exit status 127, so `run` returns
normally (no `CommandNotFound` is signaled, nothing is re-raised) and the
not-found message of the `FileNotFoundError` handler is never logged;
with `check_returncode=True` the signal is `CalledProcessError`, still
not `CommandNotFound`. -/
theorem c3_counterexample :
    (Cmd.run ((Cmd.new "ghostcmd").add_flags []) false "T"
        (missingExecOutcome "sh: 1: ghostcmd: not found")).1 =
      .ok ⟨127, "", "sh: 1: ghostcmd: not found"⟩ ∧
    (∀ e ∈ (Cmd.run ((Cmd.new "ghostcmd").add_flags []) false "T"
        (missingExecOutcome "sh: 1: ghostcmd: not found")).2.console,
      e.content ≠
        "Command '" ++ "ghostcmd" ++ "' not found. Please ensure it is in your PATH.") ∧
    (Cmd.run ((Cmd.new "ghostcmd").add_flags []) true "T"
        (missingExecOutcome "sh: 1: ghostcmd: not found")).1 =
      .error (.calledProcessError 127 "" "sh: 1: ghostcmd: not found") :=
  ⟨rfl, by decide, rfl⟩

/-- C3 amended: under `shell=True` a nonexistent base executable does not
raise `FileNotFoundError`; the shell exits with status 127 and `run`
treats it as an ordinary non-zero exit — it logs the WARNING
`exited with code 127` line (plus the shell's stderr diagnostic at
`ERROR`), returns the result when `check_returncode` is false, and
signals `CalledProcessError` when it is true.  `CommandNotFound` is
signaled, logged at `ERROR` and re-signaled only when the spawn itself
raises `FileNotFoundError` (e.g. the shell binary missing). -/
theorem c3_amended_shell_exit_127 (cmd : String) (flags : List String)
    (ts emsg : String) (check : Bool) :
    Cmd.run ((Cmd.new cmd).add_flags flags) false ts (missingExecOutcome emsg) =
      (.ok ⟨127, "", emsg⟩,
       ⟨⟨if emsg ≠ "" then .ERROR else .WARNING, .DEBUG, none⟩,
        [⟨.INFO, "Running command: '" ++ fullCommand ((Cmd.new cmd).add_flags flags) ++ "'..."⟩,
         ⟨.WARNING, "Command '" ++ cmd ++ "' exited with code " ++ toString (127 : Int) ++ "."⟩] ++
        (if emsg ≠ "" then [⟨.ERROR, "--- STDERR ---\n" ++ emsg.trim⟩] else []),
        []⟩) ∧
    (Cmd.run ((Cmd.new cmd).add_flags flags) true ts (missingExecOutcome emsg)).1 =
      .error (.calledProcessError 127 "" emsg) ∧
    (Cmd.run ((Cmd.new cmd).add_flags flags) check ts .notFound).1 = .error .fileNotFound ∧
    (⟨LogType.ERROR,
        "Command '" ++ cmd ++ "' not found. Please ensure it is in your PATH."⟩ : ConsoleEntry) ∈
      (Cmd.run ((Cmd.new cmd).add_flags flags) check ts .notFound).2.console := by
  refine ⟨?_, ?_, ?_, ?_⟩
  · simp only [missingExecOutcome]
    rw [run_completed_ok_state cmd flags false ts "" emsg 127 (by simp)]
    by_cases he : emsg = "" <;> simp [he]
  · simp only [missingExecOutcome]
    rw [run_cpe_state cmd flags ts "" emsg 127 (by decide)]
  · rw [run_notfound_state]
  · rw [run_notfound_state]
    simp

/-- C6: on a non-raising run, non-empty captured stdout is logged at `INFO`
and non-empty captured stderr at `ERROR`, each prefixed with its fixed
header. -/
theorem c6_stdout_stderr_logged (cmd : String) (flags : List String) (ts out err : String)
    (rc : Int) (check : Bool) (hnr : check = true → rc = 0) :
    (out ≠ "" →
      (⟨LogType.INFO, "--- STDOUT ---\n" ++ out.trim⟩ : ConsoleEntry) ∈
        (Cmd.run ((Cmd.new cmd).add_flags flags) check ts
          (.completed rc out err)).2.console) ∧
    (err ≠ "" →
      (⟨LogType.ERROR, "--- STDERR ---\n" ++ err.trim⟩ : ConsoleEntry) ∈
        (Cmd.run ((Cmd.new cmd).add_flags flags) check ts
          (.completed rc out err)).2.console) := by
  rw [run_completed_ok_state cmd flags check ts out err rc hnr]
  constructor <;> intro h <;> simp [h]

/-- Witness for C6 at a concrete non-raising run with non-empty stdout and
stderr. -/
theorem c6_witness :
    (⟨LogType.INFO, "--- STDOUT ---\n" ++ ("hi\n").trim⟩ : ConsoleEntry) ∈
      (Cmd.run ((Cmd.new "echo").add_flags []) false "T"
        (.completed 0 "hi\n" "oops")).2.console ∧
    (⟨LogType.ERROR, "--- STDERR ---\n" ++ ("oops").trim⟩ : ConsoleEntry) ∈
      (Cmd.run ((Cmd.new "echo").add_flags []) false "T"
        (.completed 0 "hi\n" "oops")).2.console := by
  have h := c6_stdout_stderr_logged "echo" [] "T" "hi\n" "oops" 0 false (by simp)
  exact ⟨h.1 (by decide), h.2 (by decide)⟩

/-- C10: with an empty flag list the command string handed to the shell is
the base command followed by exactly one trailing space. -/
theorem c10_empty_flags_trailing_space (cmd : String) :
    fullCommand (Cmd.new cmd) = cmd ++ " " := by
  simp [fullCommand, Cmd.new, String.intercalate]

/-- C2 counterexample: with `check_returncode=True` and exit code 1,
`subprocess.run` raises `CalledProcessError` before the exit-code branch
is reached, so no WARNING line (`exited with code N`) is ever logged on
this path — only ERROR lines. -/
theorem c2_counterexample :
    (Cmd.run ((Cmd.new "false").add_flags []) true "T" (.completed 1 "" "")).1 =
      .error (.calledProcessError 1 "" "") ∧
    ∀ e ∈ (Cmd.run ((Cmd.new "false").add_flags []) true "T"
        (.completed 1 "" "")).2.console,
      e.severity ≠ LogType.WARNING :=
  ⟨rfl, by decide⟩

/-- C2 amended: with `check_returncode=True` and a non-zero exit code,
`run` re-signals `CalledProcessError` to the caller after logging the
failure line at `ERROR` severity (and the captured stdout/stderr, also at
`ERROR`); the WARNING `exited with code N` line is not logged on this
path, since the exception is raised before the exit-code branch. -/
theorem c2_amended_error_lines (cmd : String) (flags : List String) (ts out err : String)
    (rc : Int) (hrc : rc ≠ 0) :
    (Cmd.run ((Cmd.new cmd).add_flags flags) true ts (.completed rc out err)).1 =
      .error (.calledProcessError rc out err) ∧
    (⟨LogType.ERROR, "Command '" ++ cmd ++ "' failed with error: " ++
        calledProcessErrorStr (fullCommand ((Cmd.new cmd).add_flags flags)) rc⟩ : ConsoleEntry) ∈
      (Cmd.run ((Cmd.new cmd).add_flags flags) true ts (.completed rc out err)).2.console ∧
    (∀ e ∈ (Cmd.run ((Cmd.new cmd).add_flags flags) true ts
        (.completed rc out err)).2.console,
      e.severity ≠ LogType.WARNING) ∧
    (out ≠ "" →
      (⟨LogType.ERROR, "--- STDOUT ---\n" ++ out.trim⟩ : ConsoleEntry) ∈
        (Cmd.run ((Cmd.new cmd).add_flags flags) true ts (.completed rc out err)).2.console) ∧
    (err ≠ "" →
      (⟨LogType.ERROR, "--- STDERR ---\n" ++ err.trim⟩ : ConsoleEntry) ∈
        (Cmd.run ((Cmd.new cmd).add_flags flags) true ts (.completed rc out err)).2.console) := by
  rw [run_cpe_state cmd flags ts out err rc hrc]
  refine ⟨rfl, by simp, ?_, ?_, ?_⟩
  · by_cases hout : out = "" <;> by_cases herr : err = "" <;> simp [hout, herr]
  · intro h; simp [h]
  · intro h; simp [h]

/-- Witness for the amended C2 at a concrete command with exit code 1. -/
theorem c2_amended_witness :
    (Cmd.run ((Cmd.new "false").add_flags []) true "T" (.completed 1 "out" "err")).1 =
      .error (.calledProcessError 1 "out" "err") ∧
    (⟨LogType.ERROR, "Command '" ++ "false" ++ "' failed with error: " ++
        calledProcessErrorStr (fullCommand ((Cmd.new "false").add_flags [])) 1⟩ : ConsoleEntry) ∈
      (Cmd.run ((Cmd.new "false").add_flags []) true "T" (.completed 1 "out" "err")).2.console ∧
    (∀ e ∈ (Cmd.run ((Cmd.new "false").add_flags []) true "T"
        (.completed 1 "out" "err")).2.console,
      e.severity ≠ LogType.WARNING) ∧
    ("out" ≠ "" →
      (⟨LogType.ERROR, "--- STDOUT ---\n" ++ ("out").trim⟩ : ConsoleEntry) ∈
        (Cmd.run ((Cmd.new "false").add_flags []) true "T" (.completed 1 "out" "err")).2.console) ∧
    ("err" ≠ "" →
      (⟨LogType.ERROR, "--- STDERR ---\n" ++ ("err").trim⟩ : ConsoleEntry) ∈
        (Cmd.run ((Cmd.new "false").add_flags []) true "T"
          (.completed 1 "out" "err")).2.console) :=
  c2_amended_error_lines "false" [] "T" "out" "err" 1 (by decide)

/-- C8: after every `Cmd.run` call on a freshly constructed command, the
internal logger's `type` field is left equal to the severity of the last
console message emitted during that call; it is not restored. -/
theorem c8_logger_type_last_severity (cmd : String) (flags : List String) (check : Bool)
    (ts : String) (o : SubprocessOutcome) :
    ((Cmd.run ((Cmd.new cmd).add_flags flags) check ts o).2.console.getLast?).map
        (fun e => e.severity) =
      some (Cmd.run ((Cmd.new cmd).add_flags flags) check ts o).2.logger.type := by
  cases o with
  | completed rc out err =>
    by_cases hc : check = true ∧ rc ≠ 0
    · obtain ⟨hchk, hrc⟩ := hc
      subst hchk
      rw [run_cpe_state cmd flags ts out err rc hrc]
      by_cases hout : out = "" <;> by_cases herr : err = "" <;>
        simp [hout, herr, List.getLast?]
    · have hok : check = true → rc = 0 := by
        intro hchk
        by_contra hrc
        exact hc ⟨hchk, hrc⟩
      rw [run_completed_ok_state cmd flags check ts out err rc hok]
      by_cases hrc : rc = 0 <;> by_cases hout : out = "" <;> by_cases herr : err = "" <;>
        simp [hrc, hout, herr, List.getLast?]
  | notFound =>
    rw [run_notfound_state]
    simp [List.getLast?]
  | fault m =>
    rw [run_fault_state]
    simp [List.getLast?]

/-- C4 counterexample: a logger with minimum level `SUCCESS` and a file
path whose write fails passes its `SUCCESS` message to the console, yet
the secondary logger's `ERROR` report is filtered out by the inherited
minimum level — the failure is caught but not reported at `ERROR`. -/
theorem c4_counterexample :
    ((⟨LogType.SUCCESS, LogType.SUCCESS, some "build.log"⟩ : Log).log "T" "done"
        (some "disk full")).console = [⟨LogType.SUCCESS, "done"⟩] ∧
    ((⟨LogType.SUCCESS, LogType.SUCCESS, some "build.log"⟩ : Log).log "T" "done"
        (some "disk full")).fileWrites = [] ∧
    ∀ e ∈ ((⟨LogType.SUCCESS, LogType.SUCCESS, some "build.log"⟩ : Log).log "T" "done"
        (some "disk full")).console, e.severity ≠ LogType.ERROR := by decide

/-- C4 amended: a file-write failure is always absorbed (no file line is
written and `log` still returns normally, with the original message on
the console); the secondary `ERROR` report is emitted exactly when
`ERROR` is at or above the configured minimum level — it is suppressed
when the minimum level is `SUCCESS`. -/
theorem c4_amended_write_failure (l : Log) (p ts content emsg : String)
    (hp : l.log_file_path = some p) (hpne : p ≠ "")
    (hlev : l.log_level.value ≤ l.type.value) :
    (l.log ts content (some emsg)).fileWrites = [] ∧
    (l.log ts content (some emsg)).console =
      ⟨l.type, content⟩ ::
        (if l.log_level.value ≤ LogType.value .ERROR
         then [⟨LogType.ERROR, failWriteMsg p emsg⟩] else []) := by
  have hnl : ¬ (l.type.value < l.log_level.value) := Nat.not_lt.mpr hlev
  by_cases he : l.log_level.value ≤ LogType.value .ERROR
  · have hne : ¬ (LogType.value .ERROR < l.log_level.value) := Nat.not_lt.mpr he
    simp [Log.log, Log.logFuel, hp, hpne, hnl, errorLogger, he, hne]
  · have hne : LogType.value .ERROR < l.log_level.value := Nat.not_le.mp he
    simp [Log.log, Log.logFuel, hp, hpne, hnl, errorLogger, he, hne]

/-- Witness for the amended C4: an `INFO` logger at minimum level `DEBUG`
absorbs the failure and emits the `ERROR` report. -/
theorem c4_amended_witness :
    ((⟨LogType.INFO, LogType.DEBUG, some "build.log"⟩ : Log).log "T" "msg"
        (some "disk full")).fileWrites = [] ∧
    ((⟨LogType.INFO, LogType.DEBUG, some "build.log"⟩ : Log).log "T" "msg"
        (some "disk full")).console =
      ⟨LogType.INFO, "msg"⟩ ::
        (if (LogType.DEBUG).value ≤ LogType.value .ERROR
         then [⟨LogType.ERROR, failWriteMsg "build.log" "disk full"⟩] else []) :=
  c4_amended_write_failure ⟨LogType.INFO, LogType.DEBUG, some "build.log"⟩
    "build.log" "T" "msg" "disk full" rfl (by decide) (by decide)

/-- The ASCII escape character that starts every ANSI color code. -/
def escChar : Char := '\x1b'

/-- A string is free of ANSI escape codes when it has no escape character. -/
def noEsc (s : String) : Prop := ∀ c ∈ s.data, c ≠ escChar

instance (s : String) : Decidable (noEsc s) :=
  inferInstanceAs (Decidable (∀ c ∈ s.data, c ≠ escChar))

theorem noEsc_append (a b : String) : noEsc (a ++ b) ↔ noEsc a ∧ noEsc b := by
  simp [noEsc, String.data_append, List.mem_append, or_imp, forall_and]

theorem noEsc_typeName (t : LogType) : noEsc t.name := by
  cases t <;> decide

/-- C7: two messages logged to the same file path append exactly two plain
lines in call order, each of the form `[timestamp SEVERITY]: message`, and
(provided the message and timestamp themselves are escape-free) the file
content contains no ANSI escape codes. -/
theorem c7_two_messages_file (l : Log) (p ts1 ts2 m1 m2 : String)
    (hp : l.log_file_path = some p) (hpne : p ≠ "")
    (hlev : l.log_level.value ≤ l.type.value) :
    (l.log ts1 m1 none).fileWrites ++ (l.log ts2 m2 none).fileWrites =
      [(p, "[" ++ ts1 ++ " " ++ l.type.name ++ "]: " ++ m1 ++ "\n"),
       (p, "[" ++ ts2 ++ " " ++ l.type.name ++ "]: " ++ m2 ++ "\n")] ∧
    (noEsc ts1 → noEsc m1 →
      noEsc ("[" ++ ts1 ++ " " ++ l.type.name ++ "]: " ++ m1 ++ "\n")) ∧
    (noEsc ts2 → noEsc m2 →
      noEsc ("[" ++ ts2 ++ " " ++ l.type.name ++ "]: " ++ m2 ++ "\n")) := by
  have hnl : ¬ (l.type.value < l.log_level.value) := Nat.not_lt.mpr hlev
  refine ⟨?_, ?_, ?_⟩
  · simp [Log.log, Log.logFuel, hp, hpne, hnl, plainLine]
  · intro hts hm
    simp only [noEsc_append]
    exact ⟨⟨⟨⟨⟨⟨by decide, hts⟩, by decide⟩, noEsc_typeName _⟩, by decide⟩, hm⟩, by decide⟩
  · intro hts hm
    simp only [noEsc_append]
    exact ⟨⟨⟨⟨⟨⟨by decide, hts⟩, by decide⟩, noEsc_typeName _⟩, by decide⟩, hm⟩, by decide⟩

/-- Witness for C7 at a concrete `INFO`/`DEBUG` logger and two messages. -/
theorem c7_witness :
    ((⟨LogType.INFO, LogType.DEBUG, some "a.log"⟩ : Log).log "T1" "one" none).fileWrites ++
      ((⟨LogType.INFO, LogType.DEBUG, some "a.log"⟩ : Log).log "T2" "two" none).fileWrites =
      [("a.log", "[" ++ "T1" ++ " " ++ (LogType.INFO).name ++ "]: " ++ "one" ++ "\n"),
       ("a.log", "[" ++ "T2" ++ " " ++ (LogType.INFO).name ++ "]: " ++ "two" ++ "\n")] ∧
    (noEsc "T1" → noEsc "one" →
      noEsc ("[" ++ "T1" ++ " " ++ (LogType.INFO).name ++ "]: " ++ "one" ++ "\n")) ∧
    (noEsc "T2" → noEsc "two" →
      noEsc ("[" ++ "T2" ++ " " ++ (LogType.INFO).name ++ "]: " ++ "two" ++ "\n")) :=
  c7_two_messages_file ⟨LogType.INFO, LogType.DEBUG, some "a.log"⟩
    "a.log" "T1" "T2" "one" "two" rfl (by decide) (by decide)

end Nob
